import Mathlib

/-!
Shallow embedding of `src/TcpTransport.ts` (winston-tcp): a TCP log
transport with a bounded FIFO buffer, reconnect backoff and event
emission.  Each private method of the `TcpTransport` class becomes a
pure Lean function from a `TcpState` to a new state plus the list of
emitted events and the list of strings written to the socket.  Socket
write outcomes (success vs synchronous throw) are environmental and are
passed in as explicit `Bool` oracles.
-/

namespace WinstonTcp

/-- `os.EOL`, appended to every formatted record in `log`. -/
def eol : String := "\n"

/-- Causes carried by the `error` notification. -/
inductive ErrCause
  | bufferOverflow
  | writeFailure
deriving DecidableEq, Repr

/-- Events emitted by the transport (`this.emit(...)` calls). -/
inductive Event
  | connected
  | disconnected
  | reconnecting (delay : Nat) (attempt : Nat)
  | error (cause : ErrCause)
  | logged (info : String)
  | closed
deriving DecidableEq, Repr

/-- The mutable fields of the `TcpTransport` class together with its
immutable configuration.  `reconnectTimer` stores the delay of the armed
timer when one is set; `socket` records whether `this.socket` is set. -/
structure TcpState where
  maxRetries : Int
  retryDelay : Nat
  maxBackoff : Nat
  bufferMax : Nat
  buffer : List String
  retryCount : Nat
  connected : Bool
  closing : Bool
  reconnectTimer : Option Nat
  socket : Bool
deriving DecidableEq, Repr

/-- Result of an operation: the new state, the events emitted during it
(deferred `setImmediate` emissions are placed after the synchronous
ones), and the strings successfully written to the socket, in order. -/
structure OpResult where
  state : TcpState
  events : List Event
  writes : List String
deriving DecidableEq, Repr

/-- Result of `log`, which additionally always invokes the completion
callback at the end of the method body. -/
structure LogResult extends OpResult where
  callbackCalled : Bool
deriving DecidableEq, Repr

/-- The backoff delay `Math.min(retryDelay * 2 ** retryCount, maxBackoff)`
computed by `_scheduleReconnect` for attempt index `n`. -/
def reconnectDelay (retryDelay maxBackoff n : Nat) : Nat :=
  min (retryDelay * 2 ^ n) maxBackoff

/-- `_scheduleReconnect`: no-op when closing or when retries are
exhausted (`maxRetries >= 0 && retryCount >= maxRetries`); otherwise
computes the capped exponential delay, replaces any armed timer with a
new one for that delay, and emits `reconnecting {delay, attempt}`. -/
def scheduleReconnect (s : TcpState) : TcpState × List Event :=
  if s.closing then (s, [])
  else if 0 ≤ s.maxRetries ∧ s.maxRetries ≤ (s.retryCount : Int) then (s, [])
  else
    let delay := reconnectDelay s.retryDelay s.maxBackoff s.retryCount
    ({ s with reconnectTimer := some delay },
     [Event.reconnecting delay (s.retryCount + 1)])

/-- `_safeWrite`: returns silently when no socket is set; on a successful
`socket.write` records the written string; on a synchronous throw emits
`error`, re-inserts the message at the head of the buffer only when
`buffer.length < bufferMax`, and calls `_scheduleReconnect`. -/
def safeWrite (ok : Bool) (message : String) (s : TcpState) : OpResult :=
  if s.socket = false then ⟨s, [], []⟩
  else if ok then ⟨s, [], [message]⟩
  else
    let s1 := if s.buffer.length < s.bufferMax
              then { s with buffer := message :: s.buffer } else s
    let r := scheduleReconnect s1
    ⟨r.1, Event.error ErrCause.writeFailure :: r.2, []⟩

/-- `_flushBuffer`: `while (buffer.length && connected && socket)` shift
the head and, when it is a non-empty string (JS truthiness of the shifted
message), `_safeWrite` it.  The loop of the source has no intrinsic
termination measure (a failed write re-inserts the message at the head),
so the embedding takes explicit fuel; `oks` supplies the outcome of each
`socket.write` call in order. -/
def flushBuffer : Nat → List Bool → TcpState → OpResult
  | 0, _, s => ⟨s, [], []⟩
  | Nat.succ fuel, oks, s =>
    if s.buffer = [] then ⟨s, [], []⟩
    else if s.connected && s.socket then
      let message := s.buffer.headD ""
      let s1 := { s with buffer := s.buffer.tail }
      if message = "" then
        flushBuffer fuel oks s1
      else
        let r := safeWrite (oks.headD true) message s1
        let r2 := flushBuffer fuel oks.tail r.state
        ⟨r2.state, r.events ++ r2.events, r.writes ++ r2.writes⟩
    else ⟨s, [], []⟩

/-- The `log(info, callback)` method.  `message` is the formatted record
followed by `os.EOL`; the `logged` event is emitted (via `setImmediate`,
hence placed after the synchronous events) for every call; when connected
with a socket the message goes through `_safeWrite`, otherwise it is
appended to the buffer unless occupancy has reached `bufferMax`, in which
case a single `Buffer overflow` error is emitted and the record dropped.
The callback is invoked on every path. -/
def log (writeOk : Bool) (info : String) (s : TcpState) : LogResult :=
  let message := info ++ eol
  if s.connected && s.socket then
    let r := safeWrite writeOk message s
    ⟨⟨r.state, r.events ++ [Event.logged info], r.writes⟩, true⟩
  else if s.bufferMax ≤ s.buffer.length then
    ⟨⟨s, [Event.error ErrCause.bufferOverflow, Event.logged info], []⟩, true⟩
  else
    ⟨⟨{ s with buffer := s.buffer ++ [message] }, [Event.logged info], []⟩, true⟩

/-- The socket `connect` handler installed by `_connect`: sets
`connected`, resets `retryCount`, flushes the buffer, emits `connected`.
It performs no check of `closing`. -/
def onConnect (fuel : Nat) (oks : List Bool) (s : TcpState) : OpResult :=
  let s1 := { s with connected := true, retryCount := 0 }
  let r := flushBuffer fuel oks s1
  ⟨r.state, r.events ++ [Event.connected], r.writes⟩

/-- The socket `error` handler: clears `connected` and schedules a
reconnect. -/
def onError (s : TcpState) : TcpState × List Event :=
  scheduleReconnect { s with connected := false }

/-- The socket `close` handler: clears `connected`, emits
`disconnected`, and schedules a reconnect unless closing. -/
def onClose (s : TcpState) : TcpState × List Event :=
  let s1 := { s with connected := false }
  if s1.closing then (s1, [Event.disconnected])
  else
    let r := scheduleReconnect s1
    (r.1, Event.disconnected :: r.2)

/-- The socket `timeout` handler: destroys the socket and schedules a
reconnect (the `this.socket` field itself remains set). -/
def onTimeout (s : TcpState) : TcpState × List Event :=
  scheduleReconnect s

/-- `_connect`: installs a fresh socket and attempts `socket.connect`;
`threw` records whether that call threw synchronously, in which case a
reconnect is scheduled. -/
def connectProc (threw : Bool) (s : TcpState) : TcpState × List Event :=
  let s1 := { s with socket := true }
  if threw then scheduleReconnect s1 else (s1, [])

/-- The reconnect timer callback: increments `retryCount` and runs
`_connect` again. -/
def timerFire (threw : Bool) (s : TcpState) : TcpState × List Event :=
  connectProc threw { s with retryCount := s.retryCount + 1 }

/-- `close()`: sets `closing`, cancels any armed reconnect timer, and
ends the socket; the `closed` event is emitted by the socket-end callback
when a socket is set.  The buffer is not touched. -/
def close (s : TcpState) : TcpState × List Event :=
  ({ s with closing := true, reconnectTimer := none },
   if s.socket then [Event.closed] else [])

/-- The field values established by the constructor before it invokes
`_connect`. -/
def initState (maxRetries : Int) (retryDelay maxBackoff bufferMax : Nat) :
    TcpState :=
  { maxRetries := maxRetries
    retryDelay := retryDelay
    maxBackoff := maxBackoff
    bufferMax := bufferMax
    buffer := []
    retryCount := 0
    connected := false
    closing := false
    reconnectTimer := none
    socket := false }

/-- One event-loop reentry of the transport: each constructor is one of
the externally triggered handlers (a `log` call with some write outcome,
a socket event, a timer firing, or `close`). -/
inductive Step : TcpState → TcpState → Prop
  | logStep (ok : Bool) (info : String) (s : TcpState) :
      Step s (WinstonTcp.log ok info s).state
  | connectOk (fuel : Nat) (oks : List Bool) (s : TcpState) :
      Step s (onConnect fuel oks s).state
  | sockError (s : TcpState) : Step s (onError s).1
  | sockClose (s : TcpState) : Step s (onClose s).1
  | sockTimeout (s : TcpState) : Step s (onTimeout s).1
  | timer (threw : Bool) (s : TcpState) : Step s (timerFire threw s).1
  | closeStep (s : TcpState) : Step s (WinstonTcp.close s).1

/-- Reachable states: the constructor builds `initState` and immediately
runs `_connect`, after which any sequence of handler invocations may
run. -/
inductive Reachable : TcpState → Prop
  | init (maxRetries : Int) (retryDelay maxBackoff bufferMax : Nat)
      (threw : Bool) :
      Reachable (connectProc threw
        (initState maxRetries retryDelay maxBackoff bufferMax)).1
  | step {s s' : TcpState} : Reachable s → Step s s' → Reachable s'

/-- A connected state whose buffer is at capacity (`bufferMax = 1`),
reachable e.g. after a failed direct write filled the buffer while the
socket remained nominally connected. -/
def fullConnState : TcpState :=
  { maxRetries := -1, retryDelay := 1000, maxBackoff := 30000, bufferMax := 1
    buffer := ["a\n"], retryCount := 0, connected := true, closing := false
    reconnectTimer := none, socket := true }

/-- A state in which `close()` has been called (`closing = true`) while a
record is still buffered and a connect attempt is in flight. -/
def closingState : TcpState :=
  { maxRetries := -1, retryDelay := 1000, maxBackoff := 30000, bufferMax := 10
    buffer := ["a\n"], retryCount := 3, connected := false, closing := true
    reconnectTimer := none, socket := true }

/-- A connected state with two buffered records and spare capacity, about
to be flushed. -/
def flushState : TcpState :=
  { maxRetries := -1, retryDelay := 1000, maxBackoff := 30000, bufferMax := 10
    buffer := ["a\n", "b\n"], retryCount := 0, connected := true, closing := false
    reconnectTimer := none, socket := true }

/-- A disconnected state whose buffer is at capacity (`bufferMax = 1`). -/
def fullDiscState : TcpState :=
  { maxRetries := -1, retryDelay := 1000, maxBackoff := 30000, bufferMax := 1
    buffer := ["a\n"], retryCount := 0, connected := false, closing := false
    reconnectTimer := none, socket := true }

/-- A disconnected, empty-buffer state with default configuration. -/
def discState : TcpState :=
  { maxRetries := -1, retryDelay := 1000, maxBackoff := 30000, bufferMax := 1000
    buffer := [], retryCount := 0, connected := false, closing := false
    reconnectTimer := none, socket := true }

/-- A state whose bounded retry budget is exhausted
(`maxRetries = 2 ≤ retryCount = 2`). -/
def exhaustedState : TcpState :=
  { maxRetries := 2, retryDelay := 1000, maxBackoff := 30000, bufferMax := 1000
    buffer := ["a\n"], retryCount := 2, connected := false, closing := false
    reconnectTimer := none, socket := true }

/-- The state reached by constructing the transport with `bufferMax = 1`
(no synchronous connect throw). -/
def initialSmall : TcpState :=
  (connectProc false (initState (-1) 1000 30000 1)).1

/-- `initialSmall` after one `log` call while disconnected: its buffer is
at capacity. -/
def initialSmallFull : TcpState :=
  (log true "a" initialSmall).state

/-- Sending a sequence of records through `log` with uniformly succeeding
socket writes, threading the state. -/
def sendAll (infos : List String) (s : TcpState) : TcpState :=
  infos.foldl (fun t info => (log true info t).state) s

/-! ### Helper lemmas -/

lemma scheduleReconnect_buffer (s : TcpState) :
    (scheduleReconnect s).1.buffer = s.buffer := by
  unfold scheduleReconnect
  split
  · rfl
  split
  · rfl
  · rfl

lemma scheduleReconnect_connected (s : TcpState) :
    (scheduleReconnect s).1.connected = s.connected := by
  unfold scheduleReconnect
  split
  · rfl
  split
  · rfl
  · rfl

lemma scheduleReconnect_socket (s : TcpState) :
    (scheduleReconnect s).1.socket = s.socket := by
  unfold scheduleReconnect
  split
  · rfl
  split
  · rfl
  · rfl

lemma scheduleReconnect_retryCount (s : TcpState) :
    (scheduleReconnect s).1.retryCount = s.retryCount := by
  unfold scheduleReconnect
  split
  · rfl
  split
  · rfl
  · rfl

lemma scheduleReconnect_retryDelay (s : TcpState) :
    (scheduleReconnect s).1.retryDelay = s.retryDelay := by
  unfold scheduleReconnect
  split
  · rfl
  split
  · rfl
  · rfl

lemma scheduleReconnect_maxBackoff (s : TcpState) :
    (scheduleReconnect s).1.maxBackoff = s.maxBackoff := by
  unfold scheduleReconnect
  split
  · rfl
  split
  · rfl
  · rfl

lemma scheduleReconnect_bufferMax (s : TcpState) :
    (scheduleReconnect s).1.bufferMax = s.bufferMax := by
  unfold scheduleReconnect
  split
  · rfl
  split
  · rfl
  · rfl

lemma scheduleReconnect_closing (s : TcpState) :
    (scheduleReconnect s).1.closing = s.closing := by
  unfold scheduleReconnect
  split
  · rfl
  split
  · rfl
  · rfl

lemma scheduleReconnect_events_no_logged (s : TcpState) (i : String) :
    Event.logged i ∉ (scheduleReconnect s).2 := by
  unfold scheduleReconnect
  split
  · simp
  split
  · simp
  · simp

lemma safeWrite_connected (ok : Bool) (m : String) (s : TcpState) :
    (safeWrite ok m s).state.connected = s.connected := by
  unfold safeWrite
  split
  · rfl
  split
  · rfl
  · simp only [scheduleReconnect_connected]
    split <;> rfl

lemma safeWrite_socket (ok : Bool) (m : String) (s : TcpState) :
    (safeWrite ok m s).state.socket = s.socket := by
  unfold safeWrite
  split
  · rfl
  split
  · rfl
  · simp only [scheduleReconnect_socket]
    split <;> rfl

lemma safeWrite_retryCount (ok : Bool) (m : String) (s : TcpState) :
    (safeWrite ok m s).state.retryCount = s.retryCount := by
  unfold safeWrite
  split
  · rfl
  split
  · rfl
  · simp only [scheduleReconnect_retryCount]
    split <;> rfl

lemma safeWrite_retryDelay (ok : Bool) (m : String) (s : TcpState) :
    (safeWrite ok m s).state.retryDelay = s.retryDelay := by
  unfold safeWrite
  split
  · rfl
  split
  · rfl
  · simp only [scheduleReconnect_retryDelay]
    split <;> rfl

lemma safeWrite_maxBackoff (ok : Bool) (m : String) (s : TcpState) :
    (safeWrite ok m s).state.maxBackoff = s.maxBackoff := by
  unfold safeWrite
  split
  · rfl
  split
  · rfl
  · simp only [scheduleReconnect_maxBackoff]
    split <;> rfl

lemma safeWrite_bufferMax (ok : Bool) (m : String) (s : TcpState) :
    (safeWrite ok m s).state.bufferMax = s.bufferMax := by
  unfold safeWrite
  split
  · rfl
  split
  · rfl
  · simp only [scheduleReconnect_bufferMax]
    split <;> rfl

lemma safeWrite_closing (ok : Bool) (m : String) (s : TcpState) :
    (safeWrite ok m s).state.closing = s.closing := by
  unfold safeWrite
  split
  · rfl
  split
  · rfl
  · simp only [scheduleReconnect_closing]
    split <;> rfl

lemma safeWrite_buffer_le (ok : Bool) (m : String) (s : TcpState)
    (h : s.buffer.length ≤ s.bufferMax) :
    (safeWrite ok m s).state.buffer.length ≤ s.bufferMax := by
  unfold safeWrite
  split
  · exact h
  split
  · exact h
  · simp only [scheduleReconnect_buffer]
    split
    · simpa using Nat.succ_le_of_lt (by assumption)
    · exact h

lemma safeWrite_events_no_logged (ok : Bool) (m : String) (s : TcpState)
    (i : String) : Event.logged i ∉ (safeWrite ok m s).events := by
  unfold safeWrite
  split
  · simp
  split
  · simp
  · simp only [List.mem_cons]
    rintro (h | h)
    · exact Event.noConfusion h
    · exact scheduleReconnect_events_no_logged _ i h

lemma TcpState.set_buffer_self (s : TcpState) (h : s.buffer = []) :
    ({ s with buffer := [] } : TcpState) = s := by
  cases s
  simp only at h
  simp [h]

lemma flushBuffer_fields (fuel : Nat) (oks : List Bool) (s : TcpState) :
    (flushBuffer fuel oks s).state.connected = s.connected ∧
    (flushBuffer fuel oks s).state.socket = s.socket ∧
    (flushBuffer fuel oks s).state.retryCount = s.retryCount ∧
    (flushBuffer fuel oks s).state.retryDelay = s.retryDelay ∧
    (flushBuffer fuel oks s).state.maxBackoff = s.maxBackoff ∧
    (flushBuffer fuel oks s).state.bufferMax = s.bufferMax ∧
    (flushBuffer fuel oks s).state.closing = s.closing := by
  induction fuel generalizing oks s with
  | zero => exact ⟨rfl, rfl, rfl, rfl, rfl, rfl, rfl⟩
  | succ fuel ih =>
    unfold flushBuffer
    split
    · exact ⟨rfl, rfl, rfl, rfl, rfl, rfl, rfl⟩
    split
    · dsimp only
      split
      · exact ih oks _
      · have h1 := ih oks.tail (safeWrite (oks.headD true)
          (s.buffer.headD "") { s with buffer := s.buffer.tail }).state
        simp only [h1.1, h1.2.1, h1.2.2.1, h1.2.2.2.1, h1.2.2.2.2.1,
          h1.2.2.2.2.2.1, h1.2.2.2.2.2.2, safeWrite_connected,
          safeWrite_socket, safeWrite_retryCount, safeWrite_retryDelay,
          safeWrite_maxBackoff, safeWrite_bufferMax, safeWrite_closing]
        exact ⟨trivial, trivial, trivial, trivial, trivial, trivial, trivial⟩
    · exact ⟨rfl, rfl, rfl, rfl, rfl, rfl, rfl⟩

lemma length_tail_le (l : List String) : l.tail.length ≤ l.length := by
  cases l with
  | nil => exact Nat.le_refl 0
  | cons a t => exact Nat.le_succ t.length

lemma flushBuffer_buffer_le (fuel : Nat) (oks : List Bool) (s : TcpState)
    (h : s.buffer.length ≤ s.bufferMax) :
    (flushBuffer fuel oks s).state.buffer.length ≤ s.bufferMax := by
  induction fuel generalizing oks s with
  | zero => exact h
  | succ fuel ih =>
    unfold flushBuffer
    split
    · exact h
    split
    · dsimp only
      split
      · exact ih oks _ (le_trans (length_tail_le s.buffer) h)
      · have hr := safeWrite_buffer_le (oks.headD true) (s.buffer.headD "")
          { s with buffer := s.buffer.tail }
          (le_trans (length_tail_le s.buffer) h)
        have hkey := ih oks.tail (safeWrite (oks.headD true) (s.buffer.headD "")
          { s with buffer := s.buffer.tail }).state
          (by rw [safeWrite_bufferMax]; exact hr)
        rw [safeWrite_bufferMax] at hkey
        exact hkey
    · exact h

lemma flushBuffer_drains (fuel : Nat) (oks : List Bool) (s : TcpState)
    (hc : s.connected = true) (hsock : s.socket = true)
    (hmsgs : ∀ m ∈ s.buffer, m ≠ "") (hoks : ∀ b ∈ oks, b = true)
    (hfuel : s.buffer.length ≤ fuel) :
    flushBuffer fuel oks s = ⟨{ s with buffer := [] }, [], s.buffer⟩ := by
  induction fuel generalizing oks s with
  | zero =>
    have hb : s.buffer = [] := List.length_eq_zero.mp (Nat.le_zero.mp hfuel)
    rw [flushBuffer, TcpState.set_buffer_self s hb, hb]
  | succ fuel ih =>
    cases hb : s.buffer with
    | nil =>
      rw [flushBuffer, if_pos hb, TcpState.set_buffer_self s hb]
    | cons m rest =>
      have hm : m ≠ "" := hmsgs m (by rw [hb]; exact List.mem_cons_self m rest)
      have hok : oks.headD true = true := by
        cases oks with
        | nil => rfl
        | cons b bs => exact hoks b (List.mem_cons_self b bs)
      have hbne : ¬ s.buffer = [] := by rw [hb]; exact List.cons_ne_nil m rest
      have hcs : (s.connected && s.socket) = true := by rw [hc, hsock]; rfl
      rw [flushBuffer, if_neg hbne, if_pos hcs]
      simp only [hb, List.headD_cons, List.tail_cons]
      rw [if_neg hm, hok]
      have hsw : safeWrite true m { s with buffer := rest } =
          ⟨{ s with buffer := rest }, [], [m]⟩ := by
        rw [safeWrite]
        simp [hsock]
      rw [hsw]
      have hrec := ih oks.tail { s with buffer := rest } hc hsock
        (fun m' hm' => hmsgs m' (by rw [hb]; exact List.mem_cons_of_mem m hm'))
        (fun b hb' => hoks b (List.mem_of_mem_tail hb'))
        (by
          have hlen : s.buffer.length = rest.length + 1 := by rw [hb]; rfl
          rw [hlen] at hfuel
          exact Nat.le_of_succ_le_succ hfuel)
      rw [hrec]
      simp

lemma log_disconnected (ok : Bool) (info : String) (s : TcpState)
    (hc : s.connected = false) (hlen : s.buffer.length < s.bufferMax) :
    log ok info s =
      ⟨⟨{ s with buffer := s.buffer ++ [info ++ eol] },
        [Event.logged info], []⟩, true⟩ := by
  unfold log
  rw [if_neg (by simp [hc]), if_neg (Nat.not_le.mpr hlen)]

lemma log_callback (ok : Bool) (info : String) (s : TcpState) :
    (log ok info s).callbackCalled = true := by
  unfold log
  split
  · rfl
  split
  · rfl
  · rfl

lemma log_inv (ok : Bool) (info : String) (s : TcpState)
    (h : s.buffer.length ≤ s.bufferMax) :
    (log ok info s).state.buffer.length ≤ (log ok info s).state.bufferMax := by
  unfold log
  split
  · dsimp only
    rw [safeWrite_bufferMax]
    exact safeWrite_buffer_le _ _ _ h
  split
  · exact h
  · dsimp only
    simp only [List.length_append, List.length_cons, List.length_nil]
    omega

lemma flushBuffer_inv (fuel : Nat) (oks : List Bool) (s : TcpState)
    (h : s.buffer.length ≤ s.bufferMax) :
    (flushBuffer fuel oks s).state.buffer.length ≤
      (flushBuffer fuel oks s).state.bufferMax := by
  rw [(flushBuffer_fields fuel oks s).2.2.2.2.2.1]
  exact flushBuffer_buffer_le fuel oks s h

lemma step_inv {s s' : TcpState} (h : Step s s')
    (hs : s.buffer.length ≤ s.bufferMax) :
    s'.buffer.length ≤ s'.bufferMax := by
  cases h with
  | logStep ok info _ => exact log_inv ok info s hs
  | connectOk fuel oks _ =>
    unfold onConnect
    dsimp only
    exact flushBuffer_inv fuel oks { s with connected := true, retryCount := 0 } hs
  | sockError _ =>
    unfold onError
    rw [scheduleReconnect_buffer, scheduleReconnect_bufferMax]
    exact hs
  | sockClose _ =>
    unfold onClose
    dsimp only
    split
    · exact hs
    · rw [scheduleReconnect_buffer, scheduleReconnect_bufferMax]
      exact hs
  | sockTimeout _ =>
    unfold onTimeout
    rw [scheduleReconnect_buffer, scheduleReconnect_bufferMax]
    exact hs
  | timer threw _ =>
    unfold timerFire connectProc
    dsimp only
    split
    · rw [scheduleReconnect_buffer, scheduleReconnect_bufferMax]
      exact hs
    · exact hs
  | closeStep _ => exact hs

lemma reachable_buffer_le {s : TcpState} (h : Reachable s) :
    s.buffer.length ≤ s.bufferMax := by
  induction h with
  | init mr rd mb bm threw =>
    unfold connectProc initState
    dsimp only
    split
    · rw [scheduleReconnect_buffer, scheduleReconnect_bufferMax]
      exact Nat.zero_le _
    · exact Nat.zero_le _
  | step _ hstep ih => exact step_inv hstep ih

lemma append_eol_ne_empty (i : String) : i ++ eol ≠ "" := by
  intro h
  have h1 : (i ++ eol).length = 0 := by rw [h]; rfl
  rw [String.length_append] at h1
  have h2 : eol.length = 1 := rfl
  omega

lemma sendAll_spec (infos : List String) (s : TcpState)
    (hc : s.connected = false)
    (hcap : s.buffer.length + infos.length ≤ s.bufferMax) :
    sendAll infos s =
      { s with buffer := s.buffer ++ infos.map (fun i => i ++ eol) } := by
  induction infos generalizing s with
  | nil => simp [sendAll]
  | cons i rest ih =>
    have hlen : s.buffer.length < s.bufferMax := by
      simp only [List.length_cons] at hcap
      omega
    have hstep : sendAll (i :: rest) s =
        sendAll rest (log true i s).state := rfl
    rw [hstep, log_disconnected true i s hc hlen]
    rw [ih { s with buffer := s.buffer ++ [i ++ eol] } hc
      (by simp only [List.length_append, List.length_cons, List.length_nil]
          simp only [List.length_cons] at hcap
          omega)]
    simp

/-! ### Claim theorems -/

/-- C4: Buffer occupancy never exceeds `bufferMax` in any reachable
state, and for every send issued while not connected with occupancy
already equal to `bufferMax`, exactly one overflow error report is
emitted and the occupancy (indeed the whole state) is left unchanged:
the record is dropped, not retried. -/
theorem buffer_bound_and_overflow_report (s : TcpState) (hs : Reachable s) :
    s.buffer.length ≤ s.bufferMax ∧
    ∀ ok info, s.connected = false → s.buffer.length = s.bufferMax →
      (log ok info s).state = s ∧
      (log ok info s).events.count (Event.error ErrCause.bufferOverflow) = 1 := by
  refine ⟨reachable_buffer_le hs, ?_⟩
  intro ok info hc hfull
  unfold log
  rw [if_neg (by simp [hc]), if_pos (le_of_eq hfull.symm)]
  exact ⟨rfl, by simp⟩

/-- C4 witness: a concrete reachable state with a full buffer
(`bufferMax = 1`, one record buffered while disconnected); a further
send is dropped with a single overflow report. -/
theorem buffer_bound_and_overflow_report_witness :
    initialSmallFull.buffer.length ≤ initialSmallFull.bufferMax ∧
    (log true "b" initialSmallFull).state = initialSmallFull ∧
    (log true "b" initialSmallFull).events.count
      (Event.error ErrCause.bufferOverflow) = 1 := by
  have hr : Reachable initialSmallFull :=
    Reachable.step (Reachable.init (-1) 1000 30000 1 false)
      (Step.logStep true "a" initialSmall)
  have h := buffer_bound_and_overflow_report initialSmallFull hr
  exact ⟨h.1, (h.2 true "b" (by decide) (by decide)).1,
    (h.2 true "b" (by decide) (by decide)).2⟩

/-- C6: `_scheduleReconnect` (when it is not a no-op) emits
`reconnecting` carrying `delay = min(retryDelay * 2 ^ retryCount,
maxBackoff)` and `attempt = retryCount + 1`, and arms a timer for that
delay; the delay sequence `n ↦ min(retryDelay * 2 ^ n, maxBackoff)` is
non-decreasing and capped at `maxBackoff`. -/
theorem reconnect_delay_formula (s : TcpState)
    (hcl : s.closing = false)
    (hret : ¬ (0 ≤ s.maxRetries ∧ s.maxRetries ≤ (s.retryCount : Int))) :
    (scheduleReconnect s).2 =
      [Event.reconnecting (min (s.retryDelay * 2 ^ s.retryCount) s.maxBackoff)
        (s.retryCount + 1)] ∧
    (scheduleReconnect s).1.reconnectTimer =
      some (min (s.retryDelay * 2 ^ s.retryCount) s.maxBackoff) ∧
    (∀ n, reconnectDelay s.retryDelay s.maxBackoff n ≤
      reconnectDelay s.retryDelay s.maxBackoff (n + 1)) ∧
    ∀ n, reconnectDelay s.retryDelay s.maxBackoff n ≤ s.maxBackoff := by
  refine ⟨?_, ?_, ?_, ?_⟩
  · unfold scheduleReconnect
    rw [if_neg (by simp [hcl]), if_neg hret]
    rfl
  · unfold scheduleReconnect
    rw [if_neg (by simp [hcl]), if_neg hret]
    rfl
  · intro n
    unfold reconnectDelay
    exact min_le_min
      (Nat.mul_le_mul (Nat.le_refl _)
        (Nat.pow_le_pow_right (by norm_num) (Nat.le_succ n)))
      (Nat.le_refl _)
  · intro n
    exact min_le_right _ _

/-- C6 witness: a concrete non-no-op state (`closing = false`,
`maxRetries = -1`), with the monotonicity and cap facts instantiated at
attempt index 3. -/
theorem reconnect_delay_formula_witness :
    (scheduleReconnect flushState).2 =
      [Event.reconnecting
        (min (flushState.retryDelay * 2 ^ flushState.retryCount)
          flushState.maxBackoff)
        (flushState.retryCount + 1)] ∧
    (scheduleReconnect flushState).1.reconnectTimer =
      some (min (flushState.retryDelay * 2 ^ flushState.retryCount)
        flushState.maxBackoff) ∧
    reconnectDelay flushState.retryDelay flushState.maxBackoff 3 ≤
      reconnectDelay flushState.retryDelay flushState.maxBackoff 4 ∧
    reconnectDelay flushState.retryDelay flushState.maxBackoff 3 ≤
      flushState.maxBackoff := by
  have h := reconnect_delay_formula flushState rfl (by decide)
  exact ⟨h.1, h.2.1, h.2.2.1 3, h.2.2.2 3⟩

/-- C7: `_scheduleReconnect` is a no-op (state unchanged, so no timer is
armed, and no event of any kind is emitted) whenever the transport is
closing, and likewise whenever `maxRetries ≥ 0` and
`retryCount ≥ maxRetries`. -/
theorem schedule_reconnect_noop (s : TcpState) :
    (s.closing = true → scheduleReconnect s = (s, [])) ∧
    (0 ≤ s.maxRetries → s.maxRetries ≤ (s.retryCount : Int) →
      scheduleReconnect s = (s, [])) := by
  constructor
  · intro h
    unfold scheduleReconnect
    rw [if_pos h]
  · intro h1 h2
    unfold scheduleReconnect
    split
    · rfl
    · rw [if_pos ⟨h1, h2⟩]

/-- C7 witness: a concrete closing state and a concrete retry-exhausted
state (`maxRetries = 2`, `retryCount = 2`). -/
theorem schedule_reconnect_noop_witness :
    scheduleReconnect { flushState with closing := true } =
      ({ flushState with closing := true }, []) ∧
    scheduleReconnect exhaustedState = (exhaustedState, []) :=
  ⟨(schedule_reconnect_noop { flushState with closing := true }).1 rfl,
   (schedule_reconnect_noop exhaustedState).2 (by decide) (by decide)⟩

/-- C9: `retryCount` equals 0 immediately after any transition into
`Connected` (the `connect` handler resets it before flushing, and the
flush never changes it), so the next scheduled backoff delay restarts at
`min(retryDelay * 2 ^ 0, maxBackoff) = min(retryDelay, maxBackoff)`. -/
theorem retry_count_reset_on_connect (fuel : Nat) (oks : List Bool)
    (s : TcpState) :
    (onConnect fuel oks s).state.retryCount = 0 ∧
    reconnectDelay (onConnect fuel oks s).state.retryDelay
        (onConnect fuel oks s).state.maxBackoff
        (onConnect fuel oks s).state.retryCount =
      min s.retryDelay s.maxBackoff := by
  have hf := flushBuffer_fields fuel oks { s with connected := true, retryCount := 0 }
  unfold onConnect
  dsimp only
  refine ⟨hf.2.2.1, ?_⟩
  rw [hf.2.2.1, hf.2.2.2.1, hf.2.2.2.2.1]
  simp [reconnectDelay]

/-- C5: records sent while disconnected (starting from an empty buffer
and staying within capacity) are delivered by the flush of the next
successful connection exactly in the original send order, each with the
line terminator appended; the buffer is left empty and the `connected`
event list shows a single transition (hence a single flush
invocation). -/
theorem fifo_flush_delivery (infos : List String) (s : TcpState)
    (fuel : Nat) (oks : List Bool)
    (hb : s.buffer = []) (hc : s.connected = false) (hsock : s.socket = true)
    (hcap : infos.length ≤ s.bufferMax) (hfuel : infos.length ≤ fuel)
    (hoks : ∀ b ∈ oks, b = true) :
    (onConnect fuel oks (sendAll infos s)).writes =
      infos.map (fun i => i ++ eol) ∧
    (onConnect fuel oks (sendAll infos s)).state.buffer = [] ∧
    (onConnect fuel oks (sendAll infos s)).events = [Event.connected] := by
  rw [sendAll_spec infos s hc (by rw [hb]; simpa using hcap)]
  rw [hb]
  unfold onConnect
  dsimp only
  rw [flushBuffer_drains fuel oks
    { s with
      buffer := [] ++ List.map (fun i => i ++ eol) infos
      retryCount := 0
      connected := true } rfl hsock
    (by
      intro m hm
      simp only [List.nil_append, List.mem_map] at hm
      obtain ⟨i, _, hi⟩ := hm
      rw [← hi]
      exact append_eol_ne_empty i)
    hoks
    (by simpa using hfuel)]
  exact ⟨by simp, rfl, rfl⟩

/-- C5 witness: two records sent while disconnected are flushed in send
order on connection. -/
theorem fifo_flush_delivery_witness :
    (onConnect 2 [] (sendAll ["a", "b"] discState)).writes =
      ["a", "b"].map (fun i => i ++ eol) ∧
    (onConnect 2 [] (sendAll ["a", "b"] discState)).state.buffer = [] ∧
    (onConnect 2 [] (sendAll ["a", "b"] discState)).events =
      [Event.connected] :=
  fifo_flush_delivery ["a", "b"] discState 2 [] rfl rfl rfl
    (by decide) (by decide) (by simp)

/-- C10: `close()` leaves the buffer contents unchanged, and a `log`
call issued after `close()` still goes through the normal path: the
completion callback is invoked, the record is appended to the buffer
when disconnected with occupancy below `bufferMax`, and it is written
directly while still marked connected. -/
theorem close_preserves_buffer_and_send (s : TcpState) (ok : Bool)
    (info : String) :
    (close s).1.buffer = s.buffer ∧
    (log ok info (close s).1).callbackCalled = true ∧
    (s.connected = false → s.buffer.length < s.bufferMax →
      (log ok info (close s).1).state.buffer = s.buffer ++ [info ++ eol]) ∧
    (s.connected = true → s.socket = true → ok = true →
      (log ok info (close s).1).writes = [info ++ eol]) := by
  refine ⟨rfl, log_callback ok info _, ?_, ?_⟩
  · intro hc hlen
    rw [log_disconnected ok info (close s).1 hc hlen]
    rfl
  · intro hc hsock hok
    unfold log
    rw [if_pos (by simp only [close]; rw [hc, hsock]; rfl)]
    dsimp only
    unfold safeWrite
    rw [if_neg (by simp only [close]; simp [hsock]), if_pos hok]

/-- C10 witness: after `close()` on a disconnected state, a record is
still appended to the unchanged buffer. -/
theorem close_preserves_buffer_and_send_witness :
    (close discState).1.buffer = discState.buffer ∧
    (log true "x" (close discState).1).callbackCalled = true ∧
    (log true "x" (close discState).1).state.buffer =
      discState.buffer ++ ["x" ++ eol] :=
  ⟨(close_preserves_buffer_and_send discState true "x").1,
   (close_preserves_buffer_and_send discState true "x").2.1,
   (close_preserves_buffer_and_send discState true "x").2.2.1 rfl (by decide)⟩

/-- C1 counterexample: in a state whose buffer occupancy equals
`bufferMax` (here 1), a failed synchronous write does NOT re-insert the
record at the head of the buffer — `_safeWrite` guards the re-insertion
with `buffer.length < bufferMax`, so the record is dropped. -/
theorem requeue_at_capacity_drops :
    fullConnState.buffer.length = fullConnState.bufferMax ∧
    (safeWrite false "b\n" fullConnState).state.buffer ≠
      "b\n" :: fullConnState.buffer ∧
    (safeWrite false "b\n" fullConnState).state.buffer =
      fullConnState.buffer := by
  decide

/-- C1 amended: on a failed synchronous write the record is re-inserted
at the head of the buffer only when occupancy is strictly below
`bufferMax`; at occupancy `bufferMax` the buffer is left unchanged and
the record is dropped.  In both cases the write-failure error is
emitted. -/
theorem requeue_head_conditional (m : String) (s : TcpState)
    (hsock : s.socket = true) :
    (safeWrite false m s).state.buffer =
      (if s.buffer.length < s.bufferMax then m :: s.buffer else s.buffer) ∧
    Event.error ErrCause.writeFailure ∈ (safeWrite false m s).events := by
  unfold safeWrite
  rw [if_neg (by simp [hsock]), if_neg (by simp)]
  dsimp only
  constructor
  · rw [scheduleReconnect_buffer]
    split
    · rfl
    · rfl
  · exact List.mem_cons_self _ _

/-- C1 amended witness: the at-capacity case at a concrete state. -/
theorem requeue_head_conditional_witness :
    (safeWrite false "b\n" fullConnState).state.buffer =
      (if fullConnState.buffer.length < fullConnState.bufferMax
        then "b\n" :: fullConnState.buffer else fullConnState.buffer) ∧
    Event.error ErrCause.writeFailure ∈
      (safeWrite false "b\n" fullConnState).events :=
  requeue_head_conditional "b\n" fullConnState rfl

/-- C2 counterexample: with `closing = true` (close() already called), a
completing connect attempt still transitions the transport to
`connected = true` and still flushes the buffer — the `connect` success
handler contains no check of `closing`. -/
theorem closing_connect_still_flushes :
    closingState.closing = true ∧
    (onConnect 5 [] closingState).state.connected = true ∧
    (onConnect 5 [] closingState).writes = ["a\n"] ∧
    Event.connected ∈ (onConnect 5 [] closingState).events := by
  decide

/-- C2 amended: the `connect` success handler performs no `Closing`
check: even when `closing = true`, a completing attempt sets
`connected`, resets `retryCount`, drains the whole buffer to the socket
and emits `connected` (here stated for uniformly succeeding writes). -/
theorem connect_success_ignores_closing (fuel : Nat) (oks : List Bool)
    (s : TcpState) (hclosing : s.closing = true) (hsock : s.socket = true)
    (hmsgs : ∀ m ∈ s.buffer, m ≠ "") (hoks : ∀ b ∈ oks, b = true)
    (hfuel : s.buffer.length ≤ fuel) :
    onConnect fuel oks s =
      ⟨{ s with connected := true, retryCount := 0, buffer := [] },
        [Event.connected], s.buffer⟩ := by
  unfold onConnect
  dsimp only
  rw [flushBuffer_drains fuel oks
    { s with connected := true, retryCount := 0 } rfl hsock hmsgs hoks hfuel]
  simp

/-- C2 amended witness: the concrete closing state. -/
theorem connect_success_ignores_closing_witness :
    onConnect 5 [] closingState =
      ⟨{ closingState with connected := true, retryCount := 0, buffer := [] },
        [Event.connected], closingState.buffer⟩ :=
  connect_success_ignores_closing 5 [] closingState rfl rfl
    (by decide) (by simp) (by decide)

/-- C8 counterexample: a record rejected with a buffer-overflow error
still produces a `logged` notification — `log` emits `logged`
unconditionally (via `setImmediate`) before the overflow check. -/
theorem logged_emitted_on_overflow :
    fullDiscState.connected = false ∧
    fullDiscState.buffer.length = fullDiscState.bufferMax ∧
    Event.error ErrCause.bufferOverflow ∈ (log true "b" fullDiscState).events ∧
    Event.logged "b" ∈ (log true "b" fullDiscState).events := by
  decide

/-- C8 amended: every `log` call — accepted or rejected — emits exactly
one `logged` notification for its record, independent of wire
delivery. -/
theorem logged_once_per_call (ok : Bool) (info : String) (s : TcpState) :
    (log ok info s).events.count (Event.logged info) = 1 := by
  unfold log
  split
  · dsimp only
    rw [List.count_append,
      List.count_eq_zero.mpr (safeWrite_events_no_logged _ _ _ info)]
    simp
  split
  · simp
  · simp

/-- C3 counterexample: during a flush in which the first write throws,
draining is NOT halted for the cycle — the failure leaves `connected`
untouched, so the `while` loop keeps running, retries the re-queued
record, and (with subsequent writes succeeding) delivers every record in
the same cycle, leaving the buffer empty rather than queued for the next
connection. -/
theorem flush_failure_does_not_halt :
    Event.error ErrCause.writeFailure ∈ (flushBuffer 5 [false] flushState).events ∧
    (flushBuffer 5 [false] flushState).writes = ["a\n", "b\n"] ∧
    (flushBuffer 5 [false] flushState).state.buffer = [] := by
  decide

/-- C3 amended: a synchronous write failure during a flush re-queues the
failed record at the head (occupancy permitting), emits the error,
schedules a reconnect — and then the drain loop continues in the same
cycle on the restored buffer. -/
theorem flush_failure_requeues_and_continues (fuel : Nat) (oks : List Bool)
    (s : TcpState) (m : String) (rest : List String)
    (hb : s.buffer = m :: rest) (hm : m ≠ "")
    (hc : s.connected = true) (hsock : s.socket = true)
    (hlen : rest.length < s.bufferMax)
    (hcl : s.closing = false)
    (hret : ¬ (0 ≤ s.maxRetries ∧ s.maxRetries ≤ (s.retryCount : Int))) :
    flushBuffer (fuel + 1) (false :: oks) s =
      ⟨(flushBuffer fuel oks { s with reconnectTimer := some (reconnectDelay s.retryDelay s.maxBackoff s.retryCount) }).state,
        Event.error ErrCause.writeFailure ::
          Event.reconnecting
            (reconnectDelay s.retryDelay s.maxBackoff s.retryCount)
            (s.retryCount + 1) ::
          (flushBuffer fuel oks { s with reconnectTimer := some (reconnectDelay s.retryDelay s.maxBackoff s.retryCount) }).events,
        (flushBuffer fuel oks { s with reconnectTimer := some (reconnectDelay s.retryDelay s.maxBackoff s.retryCount) }).writes⟩ := by
  have hbne : ¬ s.buffer = [] := by rw [hb]; exact List.cons_ne_nil m rest
  have hcs : (s.connected && s.socket) = true := by rw [hc, hsock]; rfl
  rw [flushBuffer, if_neg hbne, if_pos hcs]
  simp only [hb, List.headD_cons, List.tail_cons]
  rw [if_neg hm]
  have hsw : safeWrite false m { s with buffer := rest } =
      ⟨{ s with buffer := m :: rest, reconnectTimer := some (reconnectDelay s.retryDelay s.maxBackoff s.retryCount) },
        [Event.error ErrCause.writeFailure,
          Event.reconnecting
            (reconnectDelay s.retryDelay s.maxBackoff s.retryCount)
            (s.retryCount + 1)], []⟩ := by
    unfold safeWrite
    rw [if_neg (by simp [hsock]), if_neg (by simp)]
    dsimp only
    rw [if_pos (by simpa using hlen)]
    unfold scheduleReconnect
    rw [if_neg (by simp [hcl]), if_neg (by simpa using hret)]
  rw [hsw]
  simp

/-- C3 amended witness: the failing first write at a concrete state; the
drain visibly continues via the recursive call on the restored
buffer. -/
theorem flush_failure_requeues_and_continues_witness :
    flushBuffer 5 [false] flushState =
      ⟨(flushBuffer 4 [] { flushState with reconnectTimer := some (reconnectDelay flushState.retryDelay flushState.maxBackoff flushState.retryCount) }).state,
        Event.error ErrCause.writeFailure ::
          Event.reconnecting
            (reconnectDelay flushState.retryDelay flushState.maxBackoff
              flushState.retryCount)
            (flushState.retryCount + 1) ::
          (flushBuffer 4 [] { flushState with reconnectTimer := some (reconnectDelay flushState.retryDelay flushState.maxBackoff flushState.retryCount) }).events,
        (flushBuffer 4 [] { flushState with reconnectTimer := some (reconnectDelay flushState.retryDelay flushState.maxBackoff flushState.retryCount) }).writes⟩ :=
  flush_failure_requeues_and_continues 4 [] flushState "a\n" ["b\n"]
    rfl (by decide) rfl rfl (by decide) rfl (by decide)

end WinstonTcp
